import Mathlib

/-!
# Bigboard wager accounting engine — verification

Shallow embedding of the wager accounting engine of the `bigboard`
repository.  Namespace `Bigboard` embeds the positive-odds variant
(`src/app/page.tsx`); namespace `Signed` embeds the signed-odds variant
(the third document of `src/unnamed/part_000`).  JavaScript numbers are
modelled as rationals, absent (`undefined`/`null`) fields as `Option`,
and ISO timestamp strings as naturals ordered as their parsed dates.
-/

/-- Wager status: `'open' | 'resolved'`. -/
inductive Status where
  | «open»
  | resolved
deriving DecidableEq, Repr

/-- Wager result: `'from' | 'to' | 'push'`. -/
inductive Result where
  | «from»
  | «to»
  | push
deriving DecidableEq, Repr

namespace Bigboard

/-- Wager record of `src/app/page.tsx` (`from_user`/`to_user` fields,
positive odds convention, Supabase audit columns). -/
structure Wager where
  id : String
  from_user : String
  to_user : String
  amount : ℚ
  odds : ℚ
  description : String
  status : Status
  result : Option Result
  created_by : Option String
  created_at : Option ℕ
  updated_at : Option ℕ
deriving DecidableEq, Repr

instance : Inhabited Wager :=
  ⟨⟨"", "", "", 0, 0, "", Status.«open», none, none, none, none⟩⟩

/-- Roster constant `USERS` of `src/app/page.tsx`. -/
def USERS : List String :=
  ["Chas", "Clay", "Craig", "Daniel", "John", "Matt", "Nick",
   "Ryan", "Sean", "Ted", "Trey", "Will", "Zac"]

/-- `getWagersBetweenUsers`: wagers between two users in both directions,
optionally restricted to open ones. -/
def getWagersBetweenUsers (wagers : List Wager) (user1 user2 : String)
    (openOnly : Bool) : List Wager :=
  wagers.filter fun w =>
    ((w.from_user == user1 && w.to_user == user2) ||
     (w.from_user == user2 && w.to_user == user1)) &&
    (!openOnly || w.status == Status.«open»)

/-- `getCellAmount`: total open amount between two users (both directions). -/
def getCellAmount (wagers : List Wager) (user1 user2 : String) : ℚ :=
  (getWagersBetweenUsers wagers user1 user2 true).foldl
    (fun sum w => sum + w.amount) 0

/-- Heatmap thresholds record. -/
structure HeatmapThresholds where
  low : ℚ
  medium : ℚ
deriving DecidableEq, Repr

/-- `getCellHeatmapClass`: classify a cell amount against thresholds. -/
def getCellHeatmapClass (amount : ℚ) (thresholds : HeatmapThresholds) : String :=
  if amount = 0 then ""
  else if amount ≤ thresholds.low then "heat-low"
  else if amount ≤ thresholds.medium then "heat-medium"
  else "heat-high"

/-- `calculateUserExposure`: total `amount * (odds / 100)` over open wagers
the user placed. -/
def calculateUserExposure (wagers : List Wager) (user : String) : ℚ :=
  (wagers.filter fun w =>
      w.from_user == user && w.status == Status.«open»).foldl
    (fun total w => total + w.amount * (w.odds / 100)) 0

/-- Cell aggregate returned by `getCellData`. -/
structure CellData where
  amount : ℚ
  count : ℕ
deriving DecidableEq, Repr

/-- `getCellData`: directional open-wager aggregate from one user to another. -/
def getCellData (wagers : List Wager) (fromUser toUser : String) : CellData :=
  let userWagers := wagers.filter fun w =>
    w.from_user == fromUser && w.to_user == toUser && w.status == Status.«open»
  ⟨userWagers.foldl (fun sum w => sum + w.amount) 0, userWagers.length⟩

/-- `calculateUserReturns`: realized profit/loss over resolved wagers
involving the user.  `toWinAmount = amount * (odds / 100)`. -/
def calculateUserReturns (wagers : List Wager) (user : String) : ℚ :=
  (wagers.filter fun w =>
      w.status == Status.resolved &&
      (w.from_user == user || w.to_user == user)).foldl
    (fun total w =>
      if w.result == some Result.push then total
      else
        let toWinAmount := w.amount * (w.odds / 100)
        if w.from_user == user then
          total + (if w.result == some Result.«from» then w.amount else -toWinAmount)
        else
          total + (if w.result == some Result.«to» then toWinAmount else -w.amount))
    0

/-- `calculateTotalWagered`: handle over resolved wagers involving the user. -/
def calculateTotalWagered (wagers : List Wager) (user : String) : ℚ :=
  (wagers.filter fun w =>
      w.status == Status.resolved &&
      (w.from_user == user || w.to_user == user)).foldl
    (fun total w =>
      if w.from_user == user then total + w.amount
      else total + w.amount * (w.odds / 100))
    0

/-- W-L-P record returned by `calculateUserRecord`. -/
structure Record where
  wins : ℕ
  losses : ℕ
  pushes : ℕ
deriving DecidableEq, Repr

/-- `calculateUserRecord`: count wins, losses, pushes over resolved wagers
involving the user. -/
def calculateUserRecord (wagers : List Wager) (user : String) : Record :=
  let resolved := wagers.filter fun w =>
    w.status == Status.resolved && (w.from_user == user || w.to_user == user)
  resolved.foldl
    (fun r w =>
      if w.result == some Result.push then { r with pushes := r.pushes + 1 }
      else if w.from_user == user then
        if w.result == some Result.«from» then { r with wins := r.wins + 1 }
        else { r with losses := r.losses + 1 }
      else
        if w.result == some Result.«to» then { r with wins := r.wins + 1 }
        else { r with losses := r.losses + 1 })
    ⟨0, 0, 0⟩

/-- `getExposureTier`: 0-3 tier of an exposure against the maximum. -/
def getExposureTier (exposure maxExposure : ℚ) : ℕ :=
  if maxExposure = 0 ∨ exposure = 0 then 0
  else
    let ratio := exposure / maxExposure
    if ratio < 1/4 then 0
    else if ratio < 1/2 then 1
    else if ratio < 3/4 then 2
    else 3

/-- JavaScript `a || b` on numbers: `0` (and, through `getD _ 0`, an
out-of-bounds index) is falsy and falls through to `b`. -/
def jsOr (a b : ℚ) : ℚ := if a = 0 then b else a

/-- The nonzero directional open cell amounts collected by the
`heatmapThresholds` memo, in its row-major iteration order over `USERS`. -/
def cellAmountsList (wagers : List Wager) : List ℚ :=
  USERS.flatMap fun rowUser =>
    USERS.filterMap fun colUser =>
      if rowUser ≠ colUser then
        let amount := (getCellData wagers rowUser colUser).amount
        if 0 < amount then some amount else none
      else none

/-- The collected cell amounts, sorted ascending (`amounts.sort((a,b)=>a-b)`). -/
def sortedCellAmounts (wagers : List Wager) : List ℚ :=
  (cellAmountsList wagers).insertionSort (· ≤ ·)

/-- The `heatmapThresholds` memo: tercile thresholds of the nonzero open
cell amounts, with JavaScript `||` fallbacks. -/
def heatmapThresholds (wagers : List Wager) : HeatmapThresholds :=
  let amounts := cellAmountsList wagers
  if amounts.isEmpty then ⟨0, 0⟩
  else
    let sorted := sortedCellAmounts wagers
    let lowIndex := amounts.length / 3
    let medIndex := amounts.length * 2 / 3
    ⟨jsOr (sorted.getD lowIndex 0) (sorted.getD 0 0),
     jsOr (sorted.getD medIndex 0)
       (jsOr (sorted.getD lowIndex 0) (sorted.getD 0 0))⟩

/-- Activity item kind: `'created' | 'resolved'`. -/
inductive ActivityType where
  | created
  | resolved
deriving DecidableEq, Repr

/-- Outcome word of a resolved activity item: `'win' | 'loss' | 'push'`. -/
inductive Outcome where
  | win
  | loss
  | push
deriving DecidableEq, Repr

/-- Activity feed item of `src/app/page.tsx`. -/
structure ActivityItem where
  id : String
  type : ActivityType
  user : String
  opponent : String
  result : Option Outcome
  timestamp : ℕ
  description : String
deriving DecidableEq, Repr

/-- The outcome word of a resolved wager:
`result === 'push' ? 'push' : (result === 'from' ? 'win' : 'loss')`. -/
def resultText (r : Result) : Outcome :=
  match r with
  | Result.push => Outcome.push
  | Result.«from» => Outcome.win
  | Result.«to» => Outcome.loss

/-- The `activities` accumulator of `deriveActivityItems`: a `created`
event per wager with a `created_at`, plus a `resolved` event per resolved
wager with a result, timestamped `updated_at || created_at || now`.  The
clock read `new Date()` is modelled by the `now` parameter. -/
def activityEvents (now : ℕ) (wagers : List Wager) : List ActivityItem :=
  wagers.flatMap fun w =>
    (match w.created_at with
     | some t =>
        [⟨w.id ++ "-created", ActivityType.created, w.from_user, w.to_user,
          none, t, w.description⟩]
     | none => []) ++
    (if w.status == Status.resolved then
      match w.result with
      | some r =>
          [⟨w.id ++ "-resolved", ActivityType.resolved, w.from_user, w.to_user,
            some (resultText r), w.updated_at.getD (w.created_at.getD now),
            w.description⟩]
      | none => []
     else [])

/-- The descending-timestamp comparison of the `activities.sort` call. -/
def activityDesc (a b : ActivityItem) : Prop := b.timestamp ≤ a.timestamp

instance : DecidableRel activityDesc := fun _ _ => Nat.decLe _ _

instance : IsTotal ActivityItem activityDesc :=
  ⟨fun a b => le_total b.timestamp a.timestamp⟩

instance : IsTrans ActivityItem activityDesc :=
  ⟨fun _ _ _ hab hbc => le_trans hbc hab⟩

/-- `deriveActivityItems`: sort the derived events by timestamp descending
(stably, as `Array.prototype.sort`) and keep the first 8. -/
def deriveActivityItems (now : ℕ) (wagers : List Wager) : List ActivityItem :=
  ((activityEvents now wagers).insertionSort activityDesc).take 8

end Bigboard

namespace Signed

/-- Wager record of the signed-odds variant (third document of
`src/unnamed/part_000`): fields `from`/`to`, odds may be negative. -/
structure Wager where
  id : String
  «from» : String
  «to» : String
  amount : ℚ
  odds : ℚ
  description : String
  status : Status
  result : Option Result
deriving DecidableEq, Repr

instance : Inhabited Wager :=
  ⟨⟨"", "", "", 0, 0, "", Status.«open», none⟩⟩

/-- `getOddsMultiplier`: `1.0` for negative odds, `1 + odds/100` otherwise. -/
def getOddsMultiplier (odds : ℚ) : ℚ :=
  if odds < 0 then 1
  else 1 + odds / 100

/-- `calculateUserExposure` (signed variant): total
`amount * getOddsMultiplier(odds)` over open wagers the user placed. -/
def calculateUserExposure (wagers : List Wager) (user : String) : ℚ :=
  (wagers.filter fun w =>
      w.«from» == user && w.status == Status.«open»).foldl
    (fun total w => total + w.amount * getOddsMultiplier w.odds) 0

/-- The `fromProfit` expression of the signed `calculateUserReturns`:
what the `from` user would win based on the odds. -/
def fromProfit (w : Wager) : ℚ :=
  if w.odds < 0 then w.amount * (100 / |w.odds|)
  else w.amount * (w.odds / 100)

/-- `calculateUserReturns` (signed variant): the placer wins `fromProfit`
or loses `amount`; the counterparty wins `amount` or loses `fromProfit`. -/
def calculateUserReturns (wagers : List Wager) (user : String) : ℚ :=
  (wagers.filter fun w =>
      w.status == Status.resolved &&
      (w.«from» == user || w.«to» == user)).foldl
    (fun total w =>
      if w.result == some Result.push then total
      else if w.«from» == user then
        total + (if w.result == some Result.«from» then fromProfit w else -w.amount)
      else
        total + (if w.result == some Result.«to» then w.amount else -fromProfit w))
    0

/-- `handleResolveWager`'s state update: mark the wager with the given id
resolved with the given result, leaving every other wager alone. -/
def handleResolveWager (wagers : List Wager) (wagerId : String)
    (result : Result) : List Wager :=
  wagers.map fun w =>
    if w.id == wagerId then
      { w with status := Status.resolved, result := some result }
    else w

end Signed

namespace Bigboard

/-- Modelled from the spec: `payoutMultiplier(odds) = 1 + odds/100` when
`odds > 0` (spec section 4.1); stated only to compare the spec's formula
with the code's arithmetic. -/
def specPayoutMultiplier (odds : ℚ) : ℚ := 1 + odds / 100

/-- The single-wager scenario of the spec: `A→B, amount=100, odds=+200`,
open. -/
def scenarioWager200 : Wager :=
  { id := "w1", from_user := "A", to_user := "B", amount := 100, odds := 200,
    description := "test", status := Status.«open», result := none,
    created_by := none, created_at := none, updated_at := none }

/-- The zero-sum scenario wager: `A→B, amount=100, odds=+150`, resolved
with `result = 'from'`. -/
def scenarioWager150 : Wager :=
  { id := "w2", from_user := "A", to_user := "B", amount := 100, odds := 150,
    description := "test", status := Status.resolved,
    result := some Result.«from»,
    created_by := none, created_at := none, updated_at := none }

/-- The same wager resolved the other way (`result = 'to'`). -/
def scenarioWager150to : Wager :=
  { scenarioWager150 with result := some Result.«to» }

/-- Per-wager contribution of the `calculateUserReturns` reduce body,
guarded by its involvement filter. -/
def returnsContrib (user : String) (w : Wager) : ℚ :=
  if w.status == Status.resolved && (w.from_user == user || w.to_user == user) then
    if w.result == some Result.push then 0
    else
      let toWinAmount := w.amount * (w.odds / 100)
      if w.from_user == user then
        (if w.result == some Result.«from» then w.amount else -toWinAmount)
      else
        (if w.result == some Result.«to» then toWinAmount else -w.amount)
  else 0

/-- Short-hand for an open roster wager used in the heatmap scenario. -/
def mkOpenWager (i f t : String) (a : ℚ) : Wager :=
  { id := i, from_user := f, to_user := t, amount := a, odds := 100,
    description := "d", status := Status.«open», result := none,
    created_by := none, created_at := none, updated_at := none }

/-- A wager collection whose nonzero directional open cell amounts are
`[10, 10, 20, 30, 100]` — the distribution of the spec's heatmap example. -/
def heatmapScenario : List Wager :=
  [mkOpenWager "h1" "Chas" "Clay" 10,
   mkOpenWager "h2" "Clay" "Craig" 10,
   mkOpenWager "h3" "Craig" "Daniel" 20,
   mkOpenWager "h4" "Daniel" "John" 30,
   mkOpenWager "h5" "John" "Matt" 100]

/-- A resolved wager with both audit timestamps set. -/
def activityWager1 : Wager :=
  { id := "a1", from_user := "A", to_user := "B", amount := 10, odds := 100,
    description := "d1", status := Status.resolved,
    result := some Result.«from», created_by := none,
    created_at := some 5, updated_at := some 9 }

/-- A resolved wager without an `updated_at`, exercising the fallback. -/
def activityWager2 : Wager :=
  { id := "a2", from_user := "B", to_user := "C", amount := 20, odds := 100,
    description := "d2", status := Status.resolved,
    result := some Result.«to», created_by := none,
    created_at := some 3, updated_at := none }

/-- Collection for the activity-feed evaluations. -/
def activityScenario : List Wager := [activityWager1, activityWager2]

end Bigboard

namespace Signed

/-- An open negative-odds wager: `Will→John, amount=100, odds=-200`. -/
def scenarioWagerNeg : Wager :=
  { id := "s1", «from» := "Will", «to» := "John", amount := 100, odds := -200,
    description := "test", status := Status.«open», result := none }

/-- Per-wager contribution of the signed `calculateUserReturns` reduce
body, guarded by its involvement filter. -/
def returnsContrib (user : String) (w : Wager) : ℚ :=
  if w.status == Status.resolved && (w.«from» == user || w.«to» == user) then
    if w.result == some Result.push then 0
    else if w.«from» == user then
      (if w.result == some Result.«from» then fromProfit w else -w.amount)
    else
      (if w.result == some Result.«to» then w.amount else -fromProfit w)
  else 0

end Signed

section FoldHelpers

/-- Folding `(t, x) ↦ t + f x` over a list sums `f` over the list. -/
theorem foldl_add_eq {α : Type} (f : α → ℚ) (l : List α) :
    ∀ a : ℚ, l.foldl (fun t x => t + f x) a = a + (l.map f).sum := by
  induction l with
  | nil => intro a; simp
  | cons x xs ih =>
      intro a
      simp only [List.foldl_cons, List.map_cons, List.sum_cons, ih]
      ring

/-- Summing `f` over a filtered list is summing the guarded `f` over the
whole list. -/
theorem sum_filter_map {α : Type} (p : α → Bool) (f : α → ℚ) (l : List α) :
    ((l.filter p).map f).sum = (l.map fun x => if p x then f x else 0).sum := by
  induction l with
  | nil => rfl
  | cons x xs ih => by_cases h : p x <;> simp [List.filter_cons, h, ih]

end FoldHelpers

namespace Bigboard

/-- `calculateUserExposure` as a sum over the filtered collection. -/
theorem calculateUserExposure_eq_sum (ws : List Wager) (u : String) :
    calculateUserExposure ws u =
      ((ws.filter fun w => w.from_user == u && w.status == Status.«open»).map
        (fun w => w.amount * (w.odds / 100))).sum := by
  unfold calculateUserExposure
  rw [foldl_add_eq]
  simp

/-- `calculateUserReturns` as the sum of per-wager contributions. -/
theorem calculateUserReturns_eq_sum (ws : List Wager) (u : String) :
    calculateUserReturns ws u = (ws.map (returnsContrib u)).sum := by
  unfold calculateUserReturns
  have hstep :
      (fun (total : ℚ) (w : Wager) =>
        if w.result == some Result.push then total
        else
          let toWinAmount := w.amount * (w.odds / 100)
          if w.from_user == u then
            total + (if w.result == some Result.«from» then w.amount else -toWinAmount)
          else
            total + (if w.result == some Result.«to» then toWinAmount else -w.amount)) =
      fun (total : ℚ) (w : Wager) =>
        total +
          (if w.result == some Result.push then 0
           else
             let toWinAmount := w.amount * (w.odds / 100)
             if w.from_user == u then
               (if w.result == some Result.«from» then w.amount else -toWinAmount)
             else
               (if w.result == some Result.«to» then toWinAmount else -w.amount)) := by
    funext total w
    by_cases hp : w.result == some Result.push
    · simp [hp]
    · by_cases hf : w.from_user == u <;> simp [hp, hf]
  rw [hstep, foldl_add_eq, sum_filter_map]
  simp only [zero_add]
  refine congrArg List.sum (List.map_eq_map_iff.mpr ?_)
  intro w _
  unfold returnsContrib
  by_cases h : w.status == Status.resolved && (w.from_user == u || w.to_user == u) <;>
    simp [h]

/-- C1: REFUTED as stated.  The spec computes exposure with
`payoutMultiplier(odds) = 1 + odds/100`, predicting `exposure(A) = 300`
for the scenario wager `A→B, amount=100, odds=+200`; the code
(`calculateUserExposure`, `src/app/page.tsx:159-163`) multiplies by
`odds/100` and yields `200`. -/
theorem C1_exposure_counterexample :
    calculateUserExposure [scenarioWager200] "A" = 200 ∧
    calculateUserExposure [scenarioWager200] "A" ≠
      scenarioWager200.amount * specPayoutMultiplier scenarioWager200.odds := by
  constructor
  · norm_num +decide [calculateUserExposure, scenarioWager200,
      List.filter_cons, List.filter_nil]
  · norm_num +decide [calculateUserExposure, scenarioWager200,
      List.filter_cons, List.filter_nil, specPayoutMultiplier]

/-- C1 (amended): for every user `u` and wager collection, exposure is the
sum over open wagers placed by `u` of `amount × (odds/100)`; counterparty
wagers and resolved wagers contribute nothing.  In the scenario of a
single open wager `A→B, amount=100, odds=+200`, `exposure(A) = 200` and
`exposure(B) = 0`. -/
theorem C1_exposure_amended :
    (∀ (ws : List Wager) (u : String),
      calculateUserExposure ws u =
        (ws.map fun w =>
          if w.from_user = u ∧ w.status = Status.«open»
          then w.amount * (w.odds / 100) else 0).sum) ∧
    calculateUserExposure [scenarioWager200] "A" = 200 ∧
    calculateUserExposure [scenarioWager200] "B" = 0 := by
  refine ⟨fun ws u => ?_,
    by norm_num +decide [calculateUserExposure, scenarioWager200,
      List.filter_cons, List.filter_nil],
    by norm_num +decide [calculateUserExposure, scenarioWager200,
      List.filter_cons, List.filter_nil]⟩
  rw [calculateUserExposure_eq_sum, sum_filter_map]
  refine congrArg List.sum (List.map_eq_map_iff.mpr ?_)
  intro w _
  by_cases h1 : w.from_user = u <;> by_cases h2 : w.status = Status.«open» <;>
    simp [h1, h2]

/-- C2: REFUTED as stated.  For the resolved wager `A→B, amount=100,
odds=+150, result=fromWins` the code (`calculateUserReturns`,
`src/app/page.tsx:182-196`) gives the counterparty `B` returns of `-100`
(the stake), not the claimed `-150`; and for `result=toWins` the placer
`A` loses `-150 = -(amount × odds/100)`, not
`-(amount × payoutMultiplier(odds)) = -250`. -/
theorem C2_returns_counterexample :
    calculateUserReturns [scenarioWager150] "B" = -100 ∧
    calculateUserReturns [scenarioWager150] "B" ≠ -150 ∧
    calculateUserReturns [scenarioWager150to] "A" = -150 ∧
    calculateUserReturns [scenarioWager150to] "A" ≠
      -(scenarioWager150to.amount *
        specPayoutMultiplier scenarioWager150to.odds) := by
  refine ⟨?_, ?_, ?_, ?_⟩ <;>
    norm_num +decide [calculateUserReturns, scenarioWager150,
      scenarioWager150to, List.filter_cons, List.filter_nil,
      specPayoutMultiplier]

/-- C2 (amended): realized returns sum per resolved wager involving `u`,
with from-side win amount `p = amount × (odds/100)`: a push contributes 0;
if `u` is the placer the wager contributes `+amount` on `fromWins` and
`-p` otherwise; if `u` is the counterparty it contributes `+p` on
`toWins` and `-amount` otherwise.  For the scenario wager (`amount=100,
odds=+150, result=fromWins`), the placer's returns are `+100` and the
counterparty's are `-100`. -/
theorem C2_returns_amended :
    (∀ (w : Wager) (ws : List Wager) (u : String),
      calculateUserReturns (w :: ws) u =
        returnsContrib u w + calculateUserReturns ws u) ∧
    (∀ (u : String) (w : Wager), w.result = some Result.push →
      returnsContrib u w = 0) ∧
    (∀ (u : String) (w : Wager) (r : Result), w.status = Status.resolved →
      w.from_user = u → w.result = some r → r ≠ Result.push →
      returnsContrib u w =
        if r = Result.«from» then w.amount else -(w.amount * (w.odds / 100))) ∧
    (∀ (u : String) (w : Wager) (r : Result), w.status = Status.resolved →
      w.to_user = u → w.from_user ≠ u → w.result = some r → r ≠ Result.push →
      returnsContrib u w =
        if r = Result.«to» then w.amount * (w.odds / 100) else -w.amount) ∧
    calculateUserReturns [scenarioWager150] "A" = 100 ∧
    calculateUserReturns [scenarioWager150] "B" = -100 := by
  refine ⟨fun w ws u => ?_, fun u w hp => ?_, fun u w r hs hf hr hrp => ?_,
    fun u w r hs ht hf hr hrp => ?_,
    by norm_num +decide [calculateUserReturns, scenarioWager150,
      List.filter_cons, List.filter_nil],
    by norm_num +decide [calculateUserReturns, scenarioWager150,
      List.filter_cons, List.filter_nil]⟩
  · rw [calculateUserReturns_eq_sum, calculateUserReturns_eq_sum]
    simp
  · unfold returnsContrib
    by_cases h : w.status == Status.resolved &&
        (w.from_user == u || w.to_user == u) <;>
      simp [h, hp]
  · unfold returnsContrib
    cases r <;> simp_all [beq_iff_eq]
  · unfold returnsContrib
    cases r <;> simp_all [beq_iff_eq]

/-- C2 witness: the amended to-side rule applied to the concrete scenario
wager. -/
theorem C2_returns_witness :
    returnsContrib "B" scenarioWager150 = -scenarioWager150.amount := by
  have h := C2_returns_amended.2.2.2.1 "B" scenarioWager150 Result.«from»
    (by decide) (by decide) (by decide) (by decide) (by decide)
  simpa using h

/-- C4: CONFIRMED.  For a single resolved wager between distinct users
the placer's and counterparty's realized returns cancel, for each of the
three results. -/
theorem C4_zero_sum (w : Wager) (r : Result) (hne : w.from_user ≠ w.to_user)
    (hs : w.status = Status.resolved) (hr : w.result = some r) :
    calculateUserReturns [w] w.from_user +
      calculateUserReturns [w] w.to_user = 0 := by
  rw [calculateUserReturns_eq_sum, calculateUserReturns_eq_sum]
  simp only [List.map_cons, List.map_nil, List.sum_cons, List.sum_nil, add_zero]
  unfold returnsContrib
  cases r <;> simp [hs, hr, beq_iff_eq, hne, Ne.symm hne]

/-- C4 witness at the concrete scenario wager. -/
theorem C4_zero_sum_witness :
    calculateUserReturns [scenarioWager150] scenarioWager150.from_user +
      calculateUserReturns [scenarioWager150] scenarioWager150.to_user = 0 :=
  C4_zero_sum scenarioWager150 Result.«from» (by decide) (by decide) (by decide)

/-- The record foldl increments exactly one tally per wager. -/
theorem record_foldl_total (u : String) (l : List Wager) :
    ∀ r : Record,
      (l.foldl (fun r w =>
        if w.result == some Result.push then { r with pushes := r.pushes + 1 }
        else if w.from_user == u then
          if w.result == some Result.«from» then { r with wins := r.wins + 1 }
          else { r with losses := r.losses + 1 }
        else
          if w.result == some Result.«to» then { r with wins := r.wins + 1 }
          else { r with losses := r.losses + 1 }) r).wins +
      (l.foldl (fun r w =>
        if w.result == some Result.push then { r with pushes := r.pushes + 1 }
        else if w.from_user == u then
          if w.result == some Result.«from» then { r with wins := r.wins + 1 }
          else { r with losses := r.losses + 1 }
        else
          if w.result == some Result.«to» then { r with wins := r.wins + 1 }
          else { r with losses := r.losses + 1 }) r).losses +
      (l.foldl (fun r w =>
        if w.result == some Result.push then { r with pushes := r.pushes + 1 }
        else if w.from_user == u then
          if w.result == some Result.«from» then { r with wins := r.wins + 1 }
          else { r with losses := r.losses + 1 }
        else
          if w.result == some Result.«to» then { r with wins := r.wins + 1 }
          else { r with losses := r.losses + 1 }) r).pushes =
      r.wins + r.losses + r.pushes + l.length := by
  induction l with
  | nil => intro r; simp
  | cons w ws ih =>
      intro r
      simp only [List.foldl_cons, List.length_cons, ih]
      split_ifs <;> simp <;> omega

/-- C9: CONFIRMED.  Wins, losses and pushes partition the resolved wagers
involving a user: their tallies sum to the number of such wagers. -/
theorem C9_record_partition (ws : List Wager) (u : String) :
    (calculateUserRecord ws u).wins + (calculateUserRecord ws u).losses +
      (calculateUserRecord ws u).pushes =
      ws.countP fun w =>
        decide (w.status = Status.resolved ∧
          (w.from_user = u ∨ w.to_user = u)) := by
  unfold calculateUserRecord
  rw [record_foldl_total]
  simp only [List.countP_eq_length_filter]
  have hpred : (fun w : Wager => w.status == Status.resolved &&
      (w.from_user == u || w.to_user == u)) =
      fun w : Wager =>
        decide (w.status = Status.resolved ∧
          (w.from_user = u ∨ w.to_user = u)) := by
    funext w
    by_cases h1 : w.status = Status.resolved <;>
      by_cases h2 : w.from_user = u <;> by_cases h3 : w.to_user = u <;>
      simp [h1, h2, h3]
  simp [hpred]

/-- C6: CONFIRMED.  `getCellData` aggregates exactly the open wagers with
the given directed pair: its amount is their summed stake, its count
their number; a resolved wager never contributes; and the aggregation is
directional — a collection exists whose `(A,B)` and `(B,A)` cells differ. -/
theorem C6_cell_data :
    (∀ (ws : List Wager) (A B : String),
      (getCellData ws A B).amount =
        (ws.map fun w =>
          if w.from_user = A ∧ w.to_user = B ∧ w.status = Status.«open»
          then w.amount else 0).sum ∧
      (getCellData ws A B).count =
        ws.countP fun w =>
          decide (w.from_user = A ∧ w.to_user = B ∧
            w.status = Status.«open»)) ∧
    (∀ (w : Wager) (ws : List Wager) (A B : String),
      w.status = Status.resolved →
      getCellData (w :: ws) A B = getCellData ws A B) ∧
    (∃ (ws : List Wager) (A B : String),
      getCellData ws A B ≠ getCellData ws B A) := by
  have hpred : ∀ (A B : String) (w : Wager),
      (w.from_user == A && w.to_user == B && w.status == Status.«open») =
      decide (w.from_user = A ∧ w.to_user = B ∧ w.status = Status.«open») := by
    intro A B w
    by_cases h1 : w.from_user = A <;> by_cases h2 : w.to_user = B <;>
      by_cases h3 : w.status = Status.«open» <;> simp [h1, h2, h3]
  refine ⟨fun ws A B => ⟨?_, ?_⟩, fun w ws A B hres => ?_, ?_⟩
  · unfold getCellData
    dsimp only
    rw [foldl_add_eq, sum_filter_map]
    simp only [zero_add]
    refine congrArg List.sum (List.map_eq_map_iff.mpr ?_)
    intro w _
    rw [hpred A B w]
    by_cases h : w.from_user = A ∧ w.to_user = B ∧ w.status = Status.«open» <;>
      simp [h]
  · unfold getCellData
    dsimp only
    simp only [List.countP_eq_length_filter]
    congr 1
    refine List.filter_congr ?_
    intro w _
    exact hpred A B w
  · unfold getCellData
    have hfalse : (w.from_user == A && w.to_user == B &&
        w.status == Status.«open») = false := by
      simp [hres]
    have heq : (w :: ws).filter
        (fun w : Wager =>
          w.from_user == A && w.to_user == B && w.status == Status.«open») =
        ws.filter (fun w : Wager =>
          w.from_user == A && w.to_user == B && w.status == Status.«open») := by
      rw [List.filter_cons]
      simp [hfalse]
    simp [heq]
  · refine ⟨[scenarioWager200], "A", "B", ?_⟩
    norm_num +decide [getCellData, scenarioWager200, List.filter_cons,
      List.filter_nil]

/-- C6 witness: the resolved scenario wager does not change the cell. -/
theorem C6_cell_data_witness :
    getCellData [scenarioWager150] "A" "B" = getCellData [] "A" "B" :=
  C6_cell_data.2.1 scenarioWager150 [] "A" "B" rfl

/-- C7: CONFIRMED.  `getWagersBetweenUsers` with no open-only filter is
exactly the either-direction pair filter over both statuses, and with
`openOnly = true` it is the open-status restriction of that list. -/
theorem C7_between_users :
    (∀ (ws : List Wager) (u1 u2 : String),
      getWagersBetweenUsers ws u1 u2 false =
        ws.filter fun w =>
          decide ((w.from_user = u1 ∧ w.to_user = u2) ∨
                  (w.from_user = u2 ∧ w.to_user = u1))) ∧
    (∀ (ws : List Wager) (u1 u2 : String),
      getWagersBetweenUsers ws u1 u2 true =
        (getWagersBetweenUsers ws u1 u2 false).filter fun w =>
          w.status == Status.«open») := by
  constructor
  · intro ws u1 u2
    unfold getWagersBetweenUsers
    refine List.filter_congr ?_
    intro w _
    by_cases h1 : w.from_user = u1 <;> by_cases h2 : w.to_user = u2 <;>
      by_cases h3 : w.from_user = u2 <;> by_cases h4 : w.to_user = u1 <;>
      simp [h1, h2, h3, h4, beq_eq_decide]
  · intro ws u1 u2
    unfold getWagersBetweenUsers
    rw [List.filter_filter]
    refine List.filter_congr ?_
    intro w _
    by_cases h1 : (w.from_user == u1 && w.to_user == u2) ||
        (w.from_user == u2 && w.to_user == u1) <;>
      by_cases h2 : w.status == Status.«open» <;> simp_all [Bool.and_comm]

end Bigboard

namespace Bigboard

set_option maxRecDepth 4000 in
/-- The heatmap scenario's nonzero directional cell amounts. -/
theorem cellAmounts_scenario :
    cellAmountsList heatmapScenario = [10, 10, 20, 30, 100] := by
  norm_num +decide [cellAmountsList, USERS, getCellData, heatmapScenario,
    mkOpenWager, List.filter_cons, List.filter_nil, List.filterMap_cons]

/-- The heatmap scenario's sorted amounts. -/
theorem sorted_scenario :
    sortedCellAmounts heatmapScenario = [10, 10, 20, 30, 100] := by
  unfold sortedCellAmounts
  rw [cellAmounts_scenario]
  norm_num

/-- The heatmap scenario's thresholds: `low = 10`, `medium = 30`. -/
theorem thresholds_scenario : heatmapThresholds heatmapScenario = ⟨10, 30⟩ := by
  unfold heatmapThresholds
  rw [cellAmounts_scenario, sorted_scenario]
  norm_num [jsOr]

/-- Every collected cell amount is positive. -/
theorem cellAmounts_pos (ws : List Wager) :
    ∀ q ∈ cellAmountsList ws, 0 < q := by
  intro q hq
  unfold cellAmountsList at hq
  rw [List.mem_flatMap] at hq
  obtain ⟨row, _, hq⟩ := hq
  rw [List.mem_filterMap] at hq
  obtain ⟨col, _, hq⟩ := hq
  by_cases hne : row ≠ col
  · rw [if_pos hne] at hq
    dsimp only at hq
    by_cases hpos : 0 < (getCellData ws row col).amount
    · rw [if_pos hpos] at hq
      cases hq
      exact hpos
    · rw [if_neg hpos] at hq
      cases hq
  · rw [if_neg hne] at hq
    cases hq

/-- Sorting the cell amounts permutes them. -/
theorem sortedCellAmounts_perm (ws : List Wager) :
    (sortedCellAmounts ws).Perm (cellAmountsList ws) :=
  List.perm_insertionSort _ _

/-- C5: REFUTED as stated.  With the dispersion `[10,10,20,30,100]` the
derived thresholds are `low = 10`, `medium = 30`, and the code
(`getCellHeatmapClass`, `src/app/page.tsx:150-155`) maps amount `15` to
the medium bucket (`15 > low = 10`), not to the low bucket as the claim's
example asserts. -/
theorem C5_heatmap_counterexample :
    heatmapThresholds heatmapScenario = ⟨10, 30⟩ ∧
    getCellHeatmapClass 15 (heatmapThresholds heatmapScenario) =
      "heat-medium" ∧
    getCellHeatmapClass 15 (heatmapThresholds heatmapScenario) ≠
      "heat-low" := by
  refine ⟨thresholds_scenario, ?_, ?_⟩ <;>
    rw [thresholds_scenario]
  · norm_num [getCellHeatmapClass]
  · norm_num [getCellHeatmapClass]
    decide

/-- C5 (amended): with `n` nonzero open directional cell amounts sorted
ascending, the low threshold is the value at index `⌊n / 3⌋` and the
medium threshold the value at index `⌊2n / 3⌋` (⟨0, 0⟩ when there are
none); classification maps `0` to none, `0 < a ≤ low` to the low bucket,
`low < a ≤ medium` to the medium bucket and `a > medium` to the high
bucket — so for amounts `[10,10,20,30,100]`, `low = 10`, `medium = 30`,
and `15` is medium, `30` is medium, `100` is high, `0` is none. -/
theorem C5_heatmap_amended :
    (∀ ws : List Wager, cellAmountsList ws ≠ [] →
      (heatmapThresholds ws).low =
        (sortedCellAmounts ws).getD ((cellAmountsList ws).length / 3) 0 ∧
      (heatmapThresholds ws).medium =
        (sortedCellAmounts ws).getD
          ((cellAmountsList ws).length * 2 / 3) 0) ∧
    (∀ ws : List Wager, cellAmountsList ws = [] →
      heatmapThresholds ws = ⟨0, 0⟩) ∧
    (∀ (a : ℚ) (t : HeatmapThresholds),
      (a = 0 → getCellHeatmapClass a t = "") ∧
      (0 < a → a ≤ t.low → getCellHeatmapClass a t = "heat-low") ∧
      (0 < a → t.low < a → a ≤ t.medium →
        getCellHeatmapClass a t = "heat-medium") ∧
      (0 < a → t.low ≤ t.medium → t.medium < a →
        getCellHeatmapClass a t = "heat-high")) ∧
    heatmapThresholds heatmapScenario = ⟨10, 30⟩ ∧
    getCellHeatmapClass 15 (heatmapThresholds heatmapScenario) =
      "heat-medium" ∧
    getCellHeatmapClass 30 (heatmapThresholds heatmapScenario) =
      "heat-medium" ∧
    getCellHeatmapClass 100 (heatmapThresholds heatmapScenario) =
      "heat-high" ∧
    getCellHeatmapClass 0 (heatmapThresholds heatmapScenario) = "" := by
  have hthresh : ∀ ws : List Wager, cellAmountsList ws ≠ [] →
      (heatmapThresholds ws).low =
        (sortedCellAmounts ws).getD ((cellAmountsList ws).length / 3) 0 ∧
      (heatmapThresholds ws).medium =
        (sortedCellAmounts ws).getD
          ((cellAmountsList ws).length * 2 / 3) 0 := by
    intro ws hne
    have hn : 0 < (cellAmountsList ws).length := List.length_pos.mpr hne
    have hlen : (sortedCellAmounts ws).length = (cellAmountsList ws).length :=
      (sortedCellAmounts_perm ws).length_eq
    have hlow_lt :
        (cellAmountsList ws).length / 3 < (sortedCellAmounts ws).length := by
      rw [hlen]
      exact Nat.div_lt_self hn (by norm_num)
    have hmed_lt :
        (cellAmountsList ws).length * 2 / 3 < (sortedCellAmounts ws).length := by
      rw [hlen]
      exact Nat.div_lt_of_lt_mul (by omega)
    have hpos : ∀ i (h : i < (sortedCellAmounts ws).length),
        0 < (sortedCellAmounts ws)[i] := by
      intro i h
      exact cellAmounts_pos ws _
        ((sortedCellAmounts_perm ws).mem_iff.mp (List.getElem_mem h))
    have hlow_ne :
        (sortedCellAmounts ws).getD ((cellAmountsList ws).length / 3) 0 ≠ 0 := by
      rw [List.getD_eq_getElem _ _ hlow_lt]
      exact ne_of_gt (hpos _ hlow_lt)
    have hmed_ne : (sortedCellAmounts ws).getD
        ((cellAmountsList ws).length * 2 / 3) 0 ≠ 0 := by
      rw [List.getD_eq_getElem _ _ hmed_lt]
      exact ne_of_gt (hpos _ hmed_lt)
    unfold heatmapThresholds
    rw [if_neg (by simpa [List.isEmpty_iff] using hne)]
    constructor
    · simp only [jsOr, if_neg hlow_ne]
    · simp only [jsOr, if_neg hmed_ne]
  refine ⟨hthresh, fun ws h0 => ?_, fun a t => ⟨fun h => ?_, fun h1 h2 => ?_,
    fun h1 h2 h3 => ?_, fun h1 h2 h3 => ?_⟩, thresholds_scenario, ?_, ?_, ?_, ?_⟩
  · unfold heatmapThresholds
    rw [if_pos (by simp [h0])]
  · simp [getCellHeatmapClass, h]
  · simp [getCellHeatmapClass, ne_of_gt h1, h2]
  · simp [getCellHeatmapClass, ne_of_gt h1, not_le.mpr h2, h3]
  · have hmed : ¬a ≤ t.medium := not_le.mpr h3
    have hlow : ¬a ≤ t.low := not_le.mpr (lt_of_le_of_lt h2 h3)
    simp [getCellHeatmapClass, ne_of_gt h1, hlow, hmed]
  · rw [thresholds_scenario]; norm_num [getCellHeatmapClass]
  · rw [thresholds_scenario]; norm_num [getCellHeatmapClass]
  · rw [thresholds_scenario]; norm_num [getCellHeatmapClass]
  · rw [thresholds_scenario]; norm_num [getCellHeatmapClass]

/-- C5 witness: the threshold-index rule evaluated on the scenario
collection, and the classification rules at concrete amounts. -/
theorem C5_heatmap_witness :
    (heatmapThresholds heatmapScenario).low =
      (sortedCellAmounts heatmapScenario).getD
        ((cellAmountsList heatmapScenario).length / 3) 0 ∧
    getCellHeatmapClass 5 ⟨10, 30⟩ = "heat-low" ∧
    getCellHeatmapClass 100 ⟨10, 30⟩ = "heat-high" := by
  have h := C5_heatmap_amended
  refine ⟨(h.1 heatmapScenario ?_).1, ?_, ?_⟩
  · rw [cellAmounts_scenario]
    simp
  · exact (h.2.2.1 5 ⟨10, 30⟩).2.1 (by norm_num) (by norm_num)
  · exact (h.2.2.1 100 ⟨10, 30⟩).2.2.2 (by norm_num) (by norm_num) (by norm_num)

/-- C8: CONFIRMED.  The derived event list holds a `created` event per
wager with a `created_at` and a `resolved` event per resolved wager with
a result, timestamped `updated_at` with fallback `created_at` then the
current time; the outcome word is `win`/`loss`/`push` for
`fromWins`/`toWins`/`push` framed from the placer's side; the feed is the
descending-timestamp sort of those events truncated to 8. -/
theorem C8_activity_feed (now : ℕ) (ws : List Wager) :
    (∀ w ∈ ws, ∀ t : ℕ, w.created_at = some t →
      (⟨w.id ++ "-created", ActivityType.created, w.from_user, w.to_user,
        none, t, w.description⟩ : ActivityItem) ∈ activityEvents now ws) ∧
    (∀ w ∈ ws, ∀ r : Result, w.status = Status.resolved → w.result = some r →
      (⟨w.id ++ "-resolved", ActivityType.resolved, w.from_user, w.to_user,
        some (resultText r), w.updated_at.getD (w.created_at.getD now),
        w.description⟩ : ActivityItem) ∈ activityEvents now ws) ∧
    (resultText Result.«from» = Outcome.win ∧
      resultText Result.«to» = Outcome.loss ∧
      resultText Result.push = Outcome.push) ∧
    (∀ (w : Wager) (t : ℕ), w.updated_at = some t →
      w.updated_at.getD (w.created_at.getD now) = t) ∧
    (∀ (w : Wager) (t : ℕ), w.updated_at = none → w.created_at = some t →
      w.updated_at.getD (w.created_at.getD now) = t) ∧
    (∀ w : Wager, w.updated_at = none → w.created_at = none →
      w.updated_at.getD (w.created_at.getD now) = now) ∧
    deriveActivityItems now ws =
      ((activityEvents now ws).insertionSort activityDesc).take 8 ∧
    List.Pairwise activityDesc (deriveActivityItems now ws) ∧
    (deriveActivityItems now ws).length = min (activityEvents now ws).length 8 := by
  refine ⟨fun w hw t hct => ?_, fun w hw r hrs hrr => ?_, ⟨rfl, rfl, rfl⟩,
    fun w t hu => ?_, fun w t hu hc => ?_, fun w hu hc => ?_, rfl, ?_, ?_⟩
  · unfold activityEvents
    rw [List.mem_flatMap]
    refine ⟨w, hw, ?_⟩
    rw [hct]
    exact List.mem_append_left _ (List.mem_singleton.mpr rfl)
  · unfold activityEvents
    rw [List.mem_flatMap]
    refine ⟨w, hw, ?_⟩
    refine List.mem_append_right _ ?_
    rw [if_pos (by simp [hrs]), hrr]
    exact List.mem_singleton.mpr rfl
  · rw [hu]; rfl
  · rw [hu, hc]; rfl
  · rw [hu, hc]; rfl
  · unfold deriveActivityItems
    exact ((List.sorted_insertionSort activityDesc _).sublist
      (List.take_sublist _ _))
  · unfold deriveActivityItems
    rw [List.length_take, (List.perm_insertionSort activityDesc _).length_eq,
      Nat.min_comm]

/-- C8 witness: the feed events of a concrete two-wager collection,
covering the mapped outcome words, and the sortedness of the feed. -/
theorem C8_activity_feed_witness :
    (⟨"a1-created", ActivityType.created, "A", "B", none, 5, "d1"⟩ :
        ActivityItem) ∈ activityEvents 0 activityScenario ∧
    (⟨"a1-resolved", ActivityType.resolved, "A", "B", some Outcome.win, 9,
        "d1"⟩ : ActivityItem) ∈ activityEvents 0 activityScenario ∧
    (⟨"a2-resolved", ActivityType.resolved, "B", "C", some Outcome.loss, 3,
        "d2"⟩ : ActivityItem) ∈ activityEvents 0 activityScenario ∧
    List.Pairwise activityDesc (deriveActivityItems 0 activityScenario) := by
  have h := C8_activity_feed 0 activityScenario
  refine ⟨?_, ?_, ?_, h.2.2.2.2.2.2.2.1⟩
  · have := h.1 activityWager1 (List.mem_cons_self _ _) 5 rfl
    simpa [activityWager1] using this
  · have := h.2.1 activityWager1 (List.mem_cons_self _ _) Result.«from» rfl rfl
    simpa [activityWager1, resultText] using this
  · have := h.2.1 activityWager2
      (List.mem_cons_of_mem _ (List.mem_cons_self _ _)) Result.«to» rfl rfl
    simpa [activityWager2, resultText] using this

end Bigboard

namespace Signed

/-- Signed `calculateUserReturns` as the sum of per-wager contributions. -/
theorem signedReturns_eq_sum (ws : List Wager) (u : String) :
    calculateUserReturns ws u = (ws.map (returnsContrib u)).sum := by
  unfold calculateUserReturns
  have hstep :
      (fun (total : ℚ) (w : Wager) =>
        if w.result == some Result.push then total
        else if w.«from» == u then
          total + (if w.result == some Result.«from» then fromProfit w
            else -w.amount)
        else
          total + (if w.result == some Result.«to» then w.amount
            else -fromProfit w)) =
      fun (total : ℚ) (w : Wager) =>
        total +
          (if w.result == some Result.push then 0
           else if w.«from» == u then
             (if w.result == some Result.«from» then fromProfit w
              else -w.amount)
           else
             (if w.result == some Result.«to» then w.amount
              else -fromProfit w)) := by
    funext total w
    by_cases hp : w.result == some Result.push
    · simp [hp]
    · by_cases hf : w.«from» == u <;> simp [hp, hf]
  rw [hstep, foldl_add_eq, sum_filter_map]
  simp only [zero_add]
  refine congrArg List.sum (List.map_eq_map_iff.mpr ?_)
  intro w _
  unfold returnsContrib
  by_cases h : w.status == Status.resolved && (w.«from» == u || w.«to» == u) <;>
    simp [h]

/-- Signed `calculateUserExposure` as a sum over the filtered collection. -/
theorem signedExposure_eq_sum (ws : List Wager) (u : String) :
    calculateUserExposure ws u =
      ((ws.filter fun w => w.«from» == u && w.status == Status.«open»).map
        (fun w => w.amount * getOddsMultiplier w.odds)).sum := by
  unfold calculateUserExposure
  rw [foldl_add_eq]
  simp

/-- C3: REFUTED as stated.  For the open negative-odds wager
`Will→John, amount=100, odds=-200` the code (`getOddsMultiplier`,
`calculateUserExposure` in the signed variant of `src/unnamed/part_000`)
uses multiplier `1.0` and yields exposure `100`, not the claimed
`amount × 100/|odds| = 50`. -/
theorem C3_negative_odds_counterexample :
    calculateUserExposure [scenarioWagerNeg] "Will" = 100 ∧
    calculateUserExposure [scenarioWagerNeg] "Will" ≠
      scenarioWagerNeg.amount * (100 / |scenarioWagerNeg.odds|) := by
  refine ⟨?_, ?_⟩ <;>
    norm_num +decide [calculateUserExposure, scenarioWagerNeg,
      getOddsMultiplier, List.filter_cons, List.filter_nil]

/-- C3 (amended): in the signed variant a negative-odds wager enters
exposure with multiplier `1.0` (the placer risks exactly the stake),
while the from-side profit used in realized returns for a resolved
negative-odds wager is `amount × 100/|odds|`, credited to the winning
side as in the code. -/
theorem C3_negative_odds_amended :
    (∀ odds : ℚ, odds < 0 → getOddsMultiplier odds = 1) ∧
    (∀ (w : Wager) (ws : List Wager) (u : String),
      w.«from» = u → w.status = Status.«open» → w.odds < 0 →
      calculateUserExposure (w :: ws) u =
        w.amount * 1 + calculateUserExposure ws u) ∧
    (∀ w : Wager, w.odds < 0 → fromProfit w = w.amount * (100 / |w.odds|)) ∧
    (∀ (w : Wager) (ws : List Wager) (u : String),
      calculateUserReturns (w :: ws) u =
        returnsContrib u w + calculateUserReturns ws u) ∧
    (∀ (w : Wager) (u : String) (r : Result), w.status = Status.resolved →
      w.«from» = u → w.odds < 0 → w.result = some r → r ≠ Result.push →
      returnsContrib u w =
        if r = Result.«from» then w.amount * (100 / |w.odds|)
        else -w.amount) ∧
    (∀ (w : Wager) (u : String) (r : Result), w.status = Status.resolved →
      w.«to» = u → w.«from» ≠ u → w.odds < 0 → w.result = some r →
      r ≠ Result.push →
      returnsContrib u w =
        if r = Result.«to» then w.amount
        else -(w.amount * (100 / |w.odds|))) := by
  have hmul : ∀ odds : ℚ, odds < 0 → getOddsMultiplier odds = 1 := by
    intro odds h
    unfold getOddsMultiplier
    simp [h]
  have hprofit : ∀ w : Wager, w.odds < 0 →
      fromProfit w = w.amount * (100 / |w.odds|) := by
    intro w h
    unfold fromProfit
    simp [h]
  refine ⟨hmul, fun w ws u hf hs ho => ?_, hprofit, fun w ws u => ?_,
    fun w u r hs hf ho hr hrp => ?_, fun w u r hs ht hf ho hr hrp => ?_⟩
  · rw [signedExposure_eq_sum, signedExposure_eq_sum]
    rw [List.filter_cons]
    have hcond : (w.«from» == u && w.status == Status.«open») = true := by
      simp [hf, hs]
    simp only [hcond, if_true, List.map_cons, List.sum_cons, hmul w.odds ho]
  · rw [signedReturns_eq_sum, signedReturns_eq_sum]
    simp
  · unfold returnsContrib
    rw [hprofit w ho] at *
    cases r <;> simp_all [beq_iff_eq]
  · unfold returnsContrib
    rw [hprofit w ho] at *
    cases r <;> simp_all [beq_iff_eq]

/-- C3 witness: the amended exposure rule and the profit formula at the
concrete negative-odds wager. -/
theorem C3_negative_odds_witness :
    calculateUserExposure [scenarioWagerNeg] "Will" =
      scenarioWagerNeg.amount * 1 + calculateUserExposure [] "Will" ∧
    fromProfit scenarioWagerNeg =
      scenarioWagerNeg.amount * (100 / |scenarioWagerNeg.odds|) :=
  ⟨C3_negative_odds_amended.2.1 scenarioWagerNeg [] "Will" (by decide)
      (by decide) (by simp [scenarioWagerNeg]),
   C3_negative_odds_amended.2.2.1 scenarioWagerNeg
      (by simp [scenarioWagerNeg])⟩

/-- C10: CONFIRMED.  Resolving a wager maps the collection to one of the
same length in which the wager at any position whose id matches gets
`status = resolved` and the given result with its other fields unchanged,
and every wager whose id differs is unchanged entirely. -/
theorem C10_resolve_frame (ws : List Wager) (wid : String) (r : Result)
    (i : ℕ) (h : i < ws.length) :
    (handleResolveWager ws wid r).length = ws.length ∧
    ((ws.getD i default).id = wid →
      ((handleResolveWager ws wid r).getD i default).status =
        Status.resolved ∧
      ((handleResolveWager ws wid r).getD i default).result = some r ∧
      ((handleResolveWager ws wid r).getD i default).id =
        (ws.getD i default).id ∧
      ((handleResolveWager ws wid r).getD i default).«from» =
        (ws.getD i default).«from» ∧
      ((handleResolveWager ws wid r).getD i default).«to» =
        (ws.getD i default).«to» ∧
      ((handleResolveWager ws wid r).getD i default).amount =
        (ws.getD i default).amount ∧
      ((handleResolveWager ws wid r).getD i default).odds =
        (ws.getD i default).odds ∧
      ((handleResolveWager ws wid r).getD i default).description =
        (ws.getD i default).description) ∧
    ((ws.getD i default).id ≠ wid →
      (handleResolveWager ws wid r).getD i default = ws.getD i default) := by
  unfold handleResolveWager
  have hlen : (ws.map fun w =>
      if w.id == wid then { w with status := Status.resolved, result := some r }
      else w).length = ws.length := List.length_map _ _
  have hlt : i < (ws.map fun w =>
      if w.id == wid then { w with status := Status.resolved, result := some r }
      else w).length := by
    rw [hlen]
    exact h
  rw [List.getD_eq_getElem _ _ hlt, List.getD_eq_getElem _ _ h,
    List.getElem_map]
  refine ⟨hlen, fun hid => ?_, fun hid => ?_⟩
  · simp [hid]
  · simp [hid]

/-- C10 witness: resolving the concrete collection at its only wager. -/
theorem C10_resolve_frame_witness :
    (handleResolveWager [scenarioWagerNeg] "s1" Result.push).length = 1 ∧
    ((handleResolveWager [scenarioWagerNeg] "s1" Result.push).getD 0
        default).status = Status.resolved := by
  have h := C10_resolve_frame [scenarioWagerNeg] "s1" Result.push 0 (by decide)
  exact ⟨h.1, (h.2.1 (by decide)).1⟩

end Signed
